import Mathlib

/-!
Shallow embedding of the retrieval-augmented solution-generation core of the
`SolutionGeneratorService` (NestJS/LangChain service): the dual-dimension
embedding cache, the three agent tools (`generateEmbedding`, `vectorSearch`,
`videoSearch`), the retry/backoff wrapper `retryOperation`, the empty-output
check of `generate`, and the response validator
`validateAndTransformResponse`.  Definitions are translated from the
TypeScript source; external collaborators (the OpenAI embedders, the
pgvector stores, the score/number formatter of `toFixed`) are parameters.
-/

namespace SolGen

/-- A vector, as stored in the embedding cache (`number[]` in the source). -/
abbrev Vec := List ℚ

/-- The embedding cache: `Map<string, number[]>` in the source, modelled as a
partial map from keys to vectors. -/
def Cache := String → Option Vec

/-- A fresh/cleared map: every lookup misses. -/
def Cache.empty : Cache := fun _ => none

/-- `map.set(k, v)` — later writes shadow earlier ones. -/
def Cache.set (m : Cache) (k : String) (v : Vec) : Cache :=
  fun q => if q = k then some v else m q

/-- `map.get(k)`. -/
def Cache.get (m : Cache) (k : String) : Option Vec := m k

/-- The mutable embedding state of the service: `embeddingCache` and
`embeddingCounter`. -/
structure EmbState where
  cache : Cache
  counter : Nat

/-- `clearEmbeddingCache()`: `this.embeddingCache.clear(); this.embeddingCounter = 0`. -/
def clearEmbeddingCache (_st : EmbState) : EmbState :=
  { cache := Cache.empty, counter := 0 }

/-- `truncateContent(content, maxLength)`: returns `content` unchanged when it
is empty (falsy) or within bound, otherwise the first `maxLength` characters
followed by an ellipsis. -/
def truncateContent (content : String) (maxLength : Nat) : String :=
  if content.length ≤ maxLength then content
  else (content.take maxLength) ++ "..."

end SolGen

namespace SolGen

/-- `emb_<n>`: the id minted for the `n`-th embedding pair. -/
def embId (n : Nat) : String := "emb_" ++ toString n

/-- The value the `generateEmbedding` tool returns to the agent:
`{ embeddingId, dimensions: { books, videos }, message }`.  It has no field
for the vectors themselves. -/
structure EmbeddingToolReturn where
  embeddingId : String
  dimBooks : Nat
  dimVideos : Nat
  message : String
deriving DecidableEq, Repr

/-- The success message of the `generateEmbedding` tool. -/
def embMessage (embeddingId : String) (d3072 d1536 : Nat) : String :=
  "Dual embeddings generated and cached as " ++ embeddingId ++ ": " ++
    toString d3072 ++ "D for books, " ++ toString d1536 ++ "D for videos"

/-- The `generateEmbedding` tool body (success path).  `embed3072` and
`embed1536` stand for `this.embeddings.embedQuery` and
`this.videoEmbeddings.embedQuery`; both vectors are cached under the freshly
minted id with dimension suffixes, and only metadata is returned. -/
def generateEmbeddingTool (embed3072 embed1536 : String → Vec)
    (st : EmbState) (text : String) : EmbState × EmbeddingToolReturn :=
  let v3072 := embed3072 text
  let v1536 := embed1536 text
  let counter := st.counter + 1
  let embeddingId := embId counter
  let cache := (st.cache.set (embeddingId ++ "_3072") v3072).set (embeddingId ++ "_1536") v1536
  ({ cache := cache, counter := counter },
   { embeddingId := embeddingId
     dimBooks := v3072.length
     dimVideos := v1536.length
     message := embMessage embeddingId v3072.length v1536.length })

/-- Metadata of a retrieved passage row (the `metadata` object of a
`match_documents` row); absent fields are `none`. -/
structure DocMeta where
  book : Option String
  book_title : Option String
  book_id : Option String
  chapter : Option String
  page_number : Option Nat
  page_start : Option Nat
  page_end : Option Nat
  paragraph_number : Option Nat
deriving DecidableEq, Repr

/-- A `VectorSearchResult` row as mapped on lines 347-352 of the service
(`id`, `content`, `metadata`, `score`). -/
structure VectorSearchResult where
  id : String
  content : String
  metadata : DocMeta
  score : ℚ
deriving DecidableEq, Repr

/-- JavaScript `a || b` on an optional string: an absent or empty string is
falsy and falls through to the alternative. -/
def jsOrS (a : Option String) (b : String) : String :=
  match a with
  | none => b
  | some s => if s = "" then b else s

/-- JavaScript `a || b` on an optional number: absent or `0` falls through. -/
def jsOrN (a : Option Nat) (b : Nat) : Nat :=
  match a with
  | none => b
  | some n => if n = 0 then b else n

/-- `result.metadata.book_title || result.metadata.book` with fallback "Unknown". -/
def bookNameOf (r : VectorSearchResult) : String :=
  jsOrS r.metadata.book_title (jsOrS r.metadata.book "Unknown")

/-- `result.metadata.book_id` with fallback "unknown". -/
def bookIdOf (r : VectorSearchResult) : String :=
  jsOrS r.metadata.book_id "unknown"

/-- `result.metadata.page_start || result.metadata.page_number || 0`. -/
def pageStartOf (r : VectorSearchResult) : Nat :=
  jsOrN r.metadata.page_start (jsOrN r.metadata.page_number 0)

/-- `result.metadata.page_end || result.metadata.page_number || 0`. -/
def pageEndOf (r : VectorSearchResult) : Nat :=
  jsOrN r.metadata.page_end (jsOrN r.metadata.page_number 0)

/-- The part of a `vectorSearch` entry template that precedes
`${result.content}` (the `**FULL CONTENT:**` slot).  `fmt` is the numeric
formatter standing for the JavaScript `score.toFixed(3)`; `index` is the
0-based map index (the template prints `index + 1`). -/
def vectorEntryBefore (fmt : ℚ → String) (index : Nat) (r : VectorSearchResult) : String :=
  toString (index + 1) ++ ". [Score: " ++ fmt r.score ++ "]\n  Book: \"" ++
    bookNameOf r ++ "\" \n  Book ID: \"" ++ bookIdOf r ++ "\"\n  Pages: " ++
    toString (pageStartOf r) ++ " - " ++ toString (pageEndOf r) ++
    "\n  \n  **FULL CONTENT:**\n  "

/-- The part of a `vectorSearch` entry template that follows
`${result.content}`: the copy-paste JSON reference snippet. -/
def vectorEntryAfter (r : VectorSearchResult) : String :=
  "\n  \n  **Reference to include in JSON:** \n  \x7b\n    \"book_title\": \"" ++
    bookNameOf r ++ "\",\n    \"book_id\": \"" ++ bookIdOf r ++
    "\",\n    \"page_start\": " ++ toString (pageStartOf r) ++
    ",\n    \"page_end\": " ++ toString (pageEndOf r) ++ "\n  \x7d"

/-- One formatted `vectorSearch` entry (the template literal on lines
372-386): everything before the content, the raw `result.content`, and
everything after it. -/
def vectorSearchEntry (fmt : ℚ → String) (index : Nat) (r : VectorSearchResult) : String :=
  vectorEntryBefore fmt index r ++ r.content ++ vectorEntryAfter r

/-- The header of the `vectorSearch` tool response. -/
def vectorHeader (n : Nat) : String :=
  "Found " ++ toString n ++
    " relevant textbook documents. **IMPORTANT: Use this source information for your \"references\" field in the JSON output.**\n\n"

/-- The trailing instruction of the `vectorSearch` tool response. -/
def vectorFooter : String :=
  "\n\n**CRITICAL: Include ALL these references in your JSON output \"references\" array using the exact format shown above.**"

/-- The full `toolResponse` string built by the `vectorSearch` tool: header,
the entries joined with the two-newline separator, and the trailing instruction. -/
def vectorSearchToolResponse (fmt : ℚ → String) (results : List VectorSearchResult) : String :=
  vectorHeader results.length ++
    String.intercalate "\n\n" (results.enum.map fun p => vectorSearchEntry fmt p.1 p.2) ++
    vectorFooter

/-- The truncated content fragments computed (into `formattedResults`) on
line 359 of the service: `this.truncateContent(result.content, 500)` per
passage.  The source computes this list but the returned `toolResponse`
does not use it. -/
def vectorFormattedContents (results : List VectorSearchResult) : List String :=
  results.map fun r => truncateContent r.content 500

/-- Observable outcome of one `vectorSearch` tool invocation: the value
raised to or returned to the caller, the `LIMIT` actually passed to the
`match_documents` similarity query (`none` when no query was issued), and
the number of passages the query produced. -/
structure VectorToolOutcome where
  result : Except String String
  queriedLimit : Option Nat
  passages : Nat
deriving Repr

/-- The `vectorSearch` tool body.  `limit` defaults to 3 when the model
omits it; a missing cached 3072D vector throws, and the outer catch
re-raises the wrapped error to the caller.  On the success path the
`match_documents` query is issued with `Math.min(limit, 4)` and the rows
(`docStore` pre-ordered by similarity, truncated by the SQL `LIMIT`) are
formatted into the tool response. -/
def vectorSearchTool (fmt : ℚ → String) (cache : Cache) (docStore : List VectorSearchResult)
    (embeddingId : String) (limit : Option Nat) : VectorToolOutcome :=
  match cache.get (embeddingId ++ "_3072") with
  | none =>
      { result := Except.error ("Vector search tool failed: " ++
          ("3072D embedding not found in cache for ID: " ++ embeddingId) ++
          ". Please check PostgreSQL connection and database status.")
        queriedLimit := none
        passages := 0 }
  | some _ =>
      let cappedLimit := min (limit.getD 3) 4
      let rows := docStore.take cappedLimit
      { result := Except.ok (vectorSearchToolResponse fmt rows)
        queriedLimit := some cappedLimit
        passages := rows.length }

/-- A row of the `video_recordings` similarity query, as mapped on lines
459-466 of the service. -/
structure VideoRow where
  video_id : String
  time_start : String
  time_end : String
  content : String
  score : ℚ
deriving DecidableEq, Repr

/-- The part of a `videoSearch` entry template preceding `${video.content}`. -/
def videoEntryBefore (fmt : ℚ → String) (index : Nat) (v : VideoRow) : String :=
  toString (index + 1) ++ ". [Score: " ++ fmt v.score ++ "]\n  Video ID: " ++
    v.video_id ++ "\n  Time Range: " ++ v.time_start ++ " - " ++ v.time_end ++
    "\n  \n  **FULL VIDEO CONTENT/TRANSCRIPT:**\n  "

/-- The part of a `videoSearch` entry template following `${video.content}`. -/
def videoEntryAfter (v : VideoRow) : String :=
  "\n  \n  **Video Reference to include in JSON:**\n  \x7b\n    \"video_id\": \"" ++
    v.video_id ++ "\",\n    \"time_start\": \"" ++ v.time_start ++
    "\",\n    \"time_end\": \"" ++ v.time_end ++ "\"\n  \x7d"

/-- One formatted `videoSearch` entry (template literal on lines 491-503). -/
def videoSearchEntry (fmt : ℚ → String) (index : Nat) (v : VideoRow) : String :=
  videoEntryBefore fmt index v ++ v.content ++ videoEntryAfter v

/-- The full `videoToolResponse` string (lines 488-506). -/
def videoSearchToolResponse (fmt : ℚ → String) (videos : List VideoRow) : String :=
  "Found " ++ toString videos.length ++
    " relevant video content. **IMPORTANT: Use this video information for your \"video_references\" field in the JSON output.**\n\n" ++
    String.intercalate "\n\n" (videos.enum.map fun p => videoSearchEntry fmt p.1 p.2) ++
    "\n\n**CRITICAL: Include ALL these video references in your JSON output \"video_references\" array. This is required for proper video citation.**"

/-- The sentinel string returned when the video query matches zero rows
(line 485). -/
def videoNoResultsSentinel : String :=
  "No relevant videos found. The video database may be empty or the search terms may be too specific."

/-- The string the outer catch of `videoSearch` returns when the cached
1536D vector is absent: the thrown message (line 423) interpolated into the
`Video search unavailable: ...` template (line 512). -/
def videoNotFoundResponse (embeddingId : String) : String :=
  "Video search unavailable: " ++
    ("Embedding " ++ embeddingId ++ " not found in cache. Please use generateEmbedding first.") ++
    ". Please check PostgreSQL connection and database status."

/-- Observable outcome of one `videoSearch` tool invocation.  `result` is
`Except.error` only if the tool raises to its caller; a string handed back
as an ordinary tool result is `Except.ok`. -/
structure VideoToolOutcome where
  result : Except String String
  queriedLimit : Option Nat
  segments : Nat
deriving Repr

/-- The `videoSearch` tool body.  `limit` defaults to 4 when omitted and is
passed to the `LIMIT $2` of the `video_recordings` query without a cap.  A
missing cached 1536D vector throws, but the outer catch (lines 510-513)
converts every error into an ordinary returned string, so the tool never
raises to its caller. -/
def videoSearchTool (fmt : ℚ → String) (cache : Cache) (videoStore : List VideoRow)
    (embeddingId : String) (limit : Option Nat) : VideoToolOutcome :=
  let lim := limit.getD 4
  match cache.get (embeddingId ++ "_1536") with
  | none =>
      { result := Except.ok (videoNotFoundResponse embeddingId)
        queriedLimit := none
        segments := 0 }
  | some _ =>
      let videos := videoStore.take lim
      if videos.length = 0 then
        { result := Except.ok videoNoResultsSentinel
          queriedLimit := some lim
          segments := 0 }
      else
        { result := Except.ok (videoSearchToolResponse fmt videos)
          queriedLimit := some lim
          segments := videos.length }

/-- A record of the `references` array of `SolutionOutputDto`. -/
structure BookRef where
  book_title : String
  book_id : String
  page_start : Int
  page_end : Int
deriving DecidableEq, Repr

/-- A record of the `video_references` array of `SolutionOutputDto`. -/
structure VideoRef where
  video_id : String
  time_start : String
  time_end : String
deriving DecidableEq, Repr

/-- A record of the `images` array of `SolutionOutputDto`. -/
structure ImageReq where
  is_required : Bool
  image_description : Option String
deriving DecidableEq, Repr

/-- A parsed response in the shape of `SolutionOutputDto` — the well-formed
(correctly typed) records that pass the `class-validator` decorator checks,
which only constrain field presence and types. -/
structure SolutionOutput where
  answer : Int
  ans_description : String
  references : List BookRef
  video_references : List VideoRef
  images : List ImageReq
deriving DecidableEq, Repr

/-- `validateAndTransformResponse` on a well-formed record: the decorator
validation passes (it only checks types, which the typed record satisfies),
then the business rules run — `answer` must lie in `[0, 3]` and
`ans_description` must be non-empty after trimming.  Every error is wrapped
by the catch on line 855 into `Invalid response format: ...`. -/
def validateAndTransformResponse (r : SolutionOutput) : Except String SolutionOutput :=
  if r.answer < 0 ∨ 3 < r.answer then
    Except.error
      "Invalid response format: Answer must be between 0 and 3 (0-based index for options A-D)"
  else if r.ans_description.trim.length = 0 then
    Except.error "Invalid response format: Answer description cannot be empty"
  else
    Except.ok r

/-- Millisecond delay before the retry following a failed `attempt`
(1-indexed): `Math.floor(baseDelay * Math.pow(2, attempt - 1) * (1 + jitter))`
where `jitter = Math.random() * 0.3`; the model draws `jitter attempt` from
the ambient jitter sequence. -/
def delayFor (baseDelay : Nat) (jitter : Nat → ℚ) (attempt : Nat) : Nat :=
  (⌊(baseDelay : ℚ) * 2 ^ (attempt - 1) * (1 + jitter attempt)⌋).toNat

/-- The observable trace of one `retryOperation` run: the value returned or
thrown (the source throws the uninitialized `lastError`, i.e. `none`, when
the loop body never ran), how many times the operation was invoked, and the
back-off delays slept between attempts, in order. -/
structure RetryTrace (E A : Type) where
  result : Except (Option E) A
  attemptsUsed : Nat
  delays : List Nat

/-- The retry loop of `retryOperation`, from the 1-indexed `attempt`
onwards: invoke `op attempt`; return its value on success; on failure break
out with the error when `attempt` has reached `maxRetries`, otherwise sleep
the jittered exponential delay and continue. -/
def retryAux {E A : Type} (op : Nat → Except E A) (maxRetries baseDelay : Nat)
    (jitter : Nat → ℚ) (attempt : Nat) (acc : List Nat) : RetryTrace E A :=
  match op attempt with
  | Except.ok r => ⟨Except.ok r, attempt, acc⟩
  | Except.error e =>
      if h : attempt < maxRetries then
        retryAux op maxRetries baseDelay jitter (attempt + 1)
          (acc ++ [delayFor baseDelay jitter attempt])
      else
        ⟨Except.error (some e), attempt, acc⟩
termination_by maxRetries - attempt

/-- `retryOperation(operation, name, maxRetries = 5, baseDelay = 2000)`:
run the loop starting at attempt 1; with `maxRetries = 0` the loop body
never runs and the undefined `lastError` is thrown. -/
def retryOperation {E A : Type} (op : Nat → Except E A) (maxRetries baseDelay : Nat)
    (jitter : Nat → ℚ) : RetryTrace E A :=
  if maxRetries = 0 then ⟨Except.error none, 0, []⟩
  else retryAux op maxRetries baseDelay jitter 1 []

/-- The delays `retryAux` sleeps after `m` consecutive failures starting at
the 1-indexed attempt `a`: the jittered exponential delay of attempts
`a, a + 1, …, a + m - 1`, in order. -/
def delaysFor (b : Nat) (jitter : Nat → ℚ) (a m : Nat) : List Nat :=
  (List.range m).map (fun i => delayFor b jitter (a + i))

/-- External collaborators of one `generate` call: the two embedding
providers, the `toFixed(3)` score formatter, and the two similarity stores
(each pre-ordered by similarity, as the SQL `ORDER BY` guarantees). -/
structure Env where
  embed3072 : String → Vec
  embed1536 : String → Vec
  fmtScore : ℚ → String
  docStore : List VectorSearchResult
  videoStore : List VideoRow

/-- One tool invocation the agent loop may request. -/
inductive AgentAction where
  | genEmbedding (text : String)
  | vectorSearch (embeddingId : String) (limit : Option Nat)
  | videoSearch (embeddingId : String) (limit : Option Nat)
deriving DecidableEq, Repr

/-- Externally visible events of one `generate` call, in program order. -/
inductive GenEvent where
  | cacheCleared
  | toolRun (a : AgentAction)
deriving DecidableEq, Repr

/-- Effect of one tool invocation on the embedding state: only
`generateEmbedding` writes to the cache; the two search tools read it. -/
def runAction (env : Env) (st : EmbState) : AgentAction → EmbState
  | AgentAction.genEmbedding t =>
      (generateEmbeddingTool env.embed3072 env.embed1536 st t).1
  | AgentAction.vectorSearch _ _ => st
  | AgentAction.videoSearch _ _ => st

/-- The sequence of tool invocations the agent loop performs. -/
def runScript (env : Env) (st : EmbState) (script : List AgentAction) : EmbState :=
  script.foldl (runAction env) st

/-- `!result.output || result.output.trim() === ''` — the empty-output
check of `generate` (line 762); `none` models an absent/undefined output. -/
def isEmptyOutput : Option String → Bool
  | none => true
  | some s => s.trim = ""

/-- The message of the `LLMGenerationError` thrown on empty agent output
(line 765). -/
def emptyOutputError : String :=
  "Agent returned empty output. This could be due to token limit exhaustion, iteration limit reached, database timeouts, or tool execution failures. Check verbose logs for details."

/-- The post-agent stage of `generate` (lines 762-796): fail on empty
output; otherwise extract/parse JSON (the brace extraction and `JSON.parse`
are modelled by the collaborator `parse`) and validate the parsed object. -/
def processAgentOutput (parse : String → Except String SolutionOutput)
    (output : Option String) : Except String SolutionOutput :=
  if isEmptyOutput output then
    Except.error emptyOutputError
  else
    match parse (output.getD "") with
    | Except.error e => Except.error ("Invalid JSON response from LangChain agent: " ++ e)
    | Except.ok parsed => validateAndTransformResponse parsed

/-- One top-level `generate` invocation: clear the embedding cache first
(line 657), run the tool invocations of the agent loop against the cleared
state, then process the final agent output; the outer catch (line 802)
wraps any failure into `Failed to generate solution: ...`.  Besides the
result and final state, the model records the ordered event trace. -/
def generateRun (env : Env) (parse : String → Except String SolutionOutput)
    (st : EmbState) (script : List AgentAction) (output : Option String) :
    Except String SolutionOutput × EmbState × List GenEvent :=
  let st0 := clearEmbeddingCache st
  let st1 := runScript env st0 script
  ((processAgentOutput parse output).mapError (fun e => "Failed to generate solution: " ++ e),
   st1,
   GenEvent.cacheCleared :: script.map GenEvent.toolRun)

/-! Concrete collaborators and inputs used by witnesses and
counterexamples. -/

/-- A concrete stand-in for the `toFixed(3)` score formatter. -/
def constFmt : ℚ → String := fun _ => "0.500"

/-- A 504-character passage content (four characters over the 500-character
truncation bound). -/
def c1Content : String := String.mk (List.replicate 504 'a')

/-- Metadata of the concrete passage row. -/
def c1Meta : DocMeta :=
  { book := none, book_title := some "Fundamentals of Nursing", book_id := some "book-12"
    chapter := none, page_number := none, page_start := some 10, page_end := some 12
    paragraph_number := none }

/-- A concrete passage row whose content exceeds the truncation bound. -/
def c1Row : VectorSearchResult :=
  { id := "doc-1", content := c1Content, metadata := c1Meta, score := 1 / 2 }

/-- A cache holding a books-dimension vector for `emb_1`. -/
def booksCache : Cache := Cache.empty.set "emb_1_3072" [0]

/-- A cache holding a videos-dimension vector for `emb_1`. -/
def vidCache : Cache := Cache.empty.set "emb_1_1536" [0]

/-- A concrete video row. -/
def mkVideoRow (n : Nat) : VideoRow :=
  { video_id := "vid-" ++ toString n, time_start := "00:00", time_end := "01:00"
    content := "transcript", score := 1 / 2 }

/-- A video store holding five segments. -/
def fiveVideoStore : List VideoRow :=
  [mkVideoRow 1, mkVideoRow 2, mkVideoRow 3, mkVideoRow 4, mkVideoRow 5]

/-- A trivial environment for `generateRun` witnesses. -/
def cEnv : Env :=
  { embed3072 := fun _ => [], embed1536 := fun _ => [], fmtScore := constFmt
    docStore := [], videoStore := [] }

/-- A parser stand-in that always fails. -/
def cParse : String → Except String SolutionOutput := fun _ => Except.error "unparsed"

/-- An initial embedding state. -/
def cState : EmbState := { cache := Cache.empty, counter := 0 }

/-- An always-failing operation for the retry witness. -/
def c3Op : Nat → Except String Unit := fun _ => Except.error "boom"

/-- A constant jitter sequence inside `[0, 0.3)`. -/
def c3Jitter : Nat → ℚ := fun _ => 1 / 10

/-! Helper lemmas. -/

/-- Prepending a common string preserves disequality. -/
lemma append_left_ne (a : String) {b c : String} (h : b ≠ c) : a ++ b ≠ a ++ c := by
  intro hh
  apply h
  have hd := congrArg String.data hh
  simp only [String.data_append] at hd
  exact String.ext (List.append_cancel_left hd)

/-- The two dimension-tagged keys of an embedding id differ. -/
lemma embKey_ne (s : String) : s ++ "_3072" ≠ s ++ "_1536" :=
  append_left_ne s (by decide)

/-- A string of length zero is empty. -/
lemma str_eq_empty_of_length_zero (s : String) (h : s.length = 0) : s = "" := by
  cases s with
  | mk data =>
      cases data with
      | nil => rfl
      | cons a l => simp [String.length] at h

/-- Joining a one-element list is the element itself. -/
lemma intercalate_singleton (sep s : String) : String.intercalate sep [s] = s := by
  simp [String.intercalate, String.intercalate.go]

/-- The length of a string is the length of its character list. -/
lemma strLength_data (t : String) : t.length = t.data.length := rfl

/-- Unrolling the delay schedule by one failed attempt. -/
lemma delaysFor_succ (b : Nat) (jitter : Nat → ℚ) (a m : Nat) :
    delaysFor b jitter a (m + 1) =
      delayFor b jitter a :: delaysFor b jitter (a + 1) m := by
  unfold delaysFor
  rw [List.range_succ_eq_map, List.map_cons, List.map_map]
  congr 1
  apply List.map_congr_left
  intro i _
  show delayFor b jitter (a + (i + 1)) = delayFor b jitter (a + 1 + i)
  congr 1
  omega

/-- The retry loop from attempt `a ≤ N` uses at most `N` attempts. -/
lemma retryAux_attempts_le {E A : Type} (op : Nat → Except E A) (N b : Nat)
    (jitter : Nat → ℚ) :
    ∀ (fuel a : Nat) (acc : List Nat), N ≤ a + fuel → a ≤ N →
      (retryAux op N b jitter a acc).attemptsUsed ≤ N := by
  intro fuel
  induction fuel with
  | zero =>
      intro a acc hf ha
      rw [retryAux]
      split
      · exact ha
      · split
        · omega
        · exact ha
  | succ n ih =>
      intro a acc hf ha
      rw [retryAux]
      split
      · exact ha
      · split
        · exact ih (a + 1) _ (by omega) (by omega)
        · exact ha

/-- The delays the retry loop records extend the accumulator with the
consecutive jittered exponential delays starting at attempt `a`. -/
lemma retryAux_delays {E A : Type} (op : Nat → Except E A) (N b : Nat)
    (jitter : Nat → ℚ) :
    ∀ (fuel a : Nat) (acc : List Nat), N ≤ a + fuel →
      ∃ m, (retryAux op N b jitter a acc).delays = acc ++ delaysFor b jitter a m := by
  intro fuel
  induction fuel with
  | zero =>
      intro a acc hf
      rw [retryAux]
      split
      · exact ⟨0, by simp [delaysFor]⟩
      · split
        · omega
        · exact ⟨0, by simp [delaysFor]⟩
  | succ n ih =>
      intro a acc hf
      rw [retryAux]
      split
      · exact ⟨0, by simp [delaysFor]⟩
      · split
        · obtain ⟨m, hm⟩ := ih (a + 1) (acc ++ [delayFor b jitter a]) (by omega)
          refine ⟨m + 1, ?_⟩
          rw [hm, delaysFor_succ, List.append_assoc, List.singleton_append]
        · exact ⟨0, by simp [delaysFor]⟩

/-- If every attempt from `a` through `N` fails, the retry loop ends by
throwing the error of attempt `N`, the last one it saw. -/
lemma retryAux_all_fail {E A : Type} (op : Nat → Except E A) (N b : Nat)
    (jitter : Nat → ℚ) :
    ∀ (fuel a : Nat) (acc : List Nat), N ≤ a + fuel → a ≤ N →
      (∀ k, a ≤ k → k ≤ N → ∃ e, op k = Except.error e) →
      ∃ e, op N = Except.error e ∧
        (retryAux op N b jitter a acc).result = Except.error (some e) := by
  intro fuel
  induction fuel with
  | zero =>
      intro a acc hf ha hfail
      have haN : a = N := by omega
      obtain ⟨e, he⟩ := hfail a (le_refl a) ha
      rw [retryAux]
      split
      · rename_i r heq
        rw [he] at heq
        cases heq
      · rename_i e' heq
        rw [he] at heq
        cases heq
        refine ⟨e, by rw [← haN]; exact he, ?_⟩
        rw [dif_neg (by omega)]
  | succ n ih =>
      intro a acc hf ha hfail
      obtain ⟨e, he⟩ := hfail a (le_refl a) ha
      rw [retryAux]
      split
      · rename_i r heq
        rw [he] at heq
        cases heq
      · rename_i e' heq
        rw [he] at heq
        cases heq
        by_cases h : a < N
        · rw [dif_pos h]
          exact ih (a + 1) _ (by omega) (by omega) (fun k hk1 hk2 => hfail k (by omega) hk2)
        · rw [dif_neg h]
          have haN : a = N := by omega
          exact ⟨e, by rw [← haN]; exact he, rfl⟩

/-- With jitter in `[0, 0.3)`, the floor-of-jittered-exponential delay of
attempt `k` lies within `[b·2^(k-1), b·2^(k-1)·1.3]`. -/
lemma delayFor_bounds (b : Nat) (jitter : Nat → ℚ) (k : Nat)
    (h0 : 0 ≤ jitter k) (h1 : jitter k < 3 / 10) :
    ((b : ℚ) * 2 ^ (k - 1) ≤ (delayFor b jitter k : ℚ)) ∧
    ((delayFor b jitter k : ℚ) ≤ (b : ℚ) * 2 ^ (k - 1) * (13 / 10)) := by
  have hB0 : (0 : ℚ) ≤ (b : ℚ) * 2 ^ (k - 1) := by positivity
  have hx0 : (0 : ℚ) ≤ (b : ℚ) * 2 ^ (k - 1) * (1 + jitter k) := by nlinarith
  have hfl0 : (0 : ℤ) ≤ ⌊(b : ℚ) * 2 ^ (k - 1) * (1 + jitter k)⌋ := Int.floor_nonneg.mpr hx0
  have hcast : ((delayFor b jitter k : ℕ) : ℚ) =
      ((⌊(b : ℚ) * 2 ^ (k - 1) * (1 + jitter k)⌋ : ℤ) : ℚ) := by
    unfold delayFor
    exact_mod_cast congrArg (Int.cast : ℤ → ℚ) (Int.toNat_of_nonneg hfl0)
  constructor
  · rw [hcast]
    have h2 : ((b * 2 ^ (k - 1) : ℕ) : ℤ) ≤ ⌊(b : ℚ) * 2 ^ (k - 1) * (1 + jitter k)⌋ := by
      rw [Int.le_floor]
      push_cast
      nlinarith
    calc (b : ℚ) * 2 ^ (k - 1) = (((b * 2 ^ (k - 1) : ℕ) : ℤ) : ℚ) := by push_cast; ring
      _ ≤ _ := by exact_mod_cast h2
  · rw [hcast]
    calc ((⌊(b : ℚ) * 2 ^ (k - 1) * (1 + jitter k)⌋ : ℤ) : ℚ) ≤
        (b : ℚ) * 2 ^ (k - 1) * (1 + jitter k) := Int.floor_le _
      _ ≤ (b : ℚ) * 2 ^ (k - 1) * (13 / 10) := by nlinarith

/-! Claim theorems. -/

/-- C5: a well-formed parsed response passes `validateAndTransformResponse`
exactly when `answer` lies in `[0, 3]` and `ans_description` is non-empty
after trimming; `answer = 4`, `answer = -1`, any other out-of-range value,
or a whitespace-only description makes it fail with a validation error. -/
theorem validateAndTransformResponse_ok_iff (r : SolutionOutput) :
    validateAndTransformResponse r = Except.ok r ↔
      (0 ≤ r.answer ∧ r.answer ≤ 3 ∧ r.ans_description.trim ≠ "") := by
  unfold validateAndTransformResponse
  split_ifs with h1 h2
  · apply iff_of_false
    · simp
    · rintro ⟨ha, hb, -⟩
      rcases h1 with h | h <;> omega
  · apply iff_of_false
    · simp
    · rintro ⟨-, -, hne⟩
      exact hne (str_eq_empty_of_length_zero _ h2)
  · apply iff_of_true rfl
    push_neg at h1
    refine ⟨h1.1, h1.2, fun heq => h2 ?_⟩
    rw [heq]
    rfl

/-- C6: a successful `generateEmbedding` invocation bumps the counter by
one (so ids strictly increase within a request), stores both vectors under
the dimension-tagged keys of the freshly minted `emb_<counter>` id, and
returns only the id, the two dimension counts and a message — the returned
value is unchanged if the vectors are replaced by zero vectors of the same
lengths, so the raw vectors never leak into the tool response. -/
theorem generateEmbeddingTool_spec (e3 e1 : String → Vec) (st : EmbState) (text : String) :
    (generateEmbeddingTool e3 e1 st text).1.counter = st.counter + 1 ∧
    st.counter < (generateEmbeddingTool e3 e1 st text).1.counter ∧
    (generateEmbeddingTool e3 e1 st text).1.cache.get (embId (st.counter + 1) ++ "_3072") =
      some (e3 text) ∧
    (generateEmbeddingTool e3 e1 st text).1.cache.get (embId (st.counter + 1) ++ "_1536") =
      some (e1 text) ∧
    (generateEmbeddingTool e3 e1 st text).2 =
      { embeddingId := embId (st.counter + 1)
        dimBooks := (e3 text).length
        dimVideos := (e1 text).length
        message := embMessage (embId (st.counter + 1)) (e3 text).length (e1 text).length } ∧
    (generateEmbeddingTool e3 e1 st text).2 =
      (generateEmbeddingTool (fun t => List.replicate (e3 t).length 0)
        (fun t => List.replicate (e1 t).length 0) st text).2 := by
  refine ⟨rfl, by simp [generateEmbeddingTool], ?_, ?_, rfl, ?_⟩
  · simp [generateEmbeddingTool, Cache.get, Cache.set, embKey_ne (embId (st.counter + 1))]
  · simp [generateEmbeddingTool, Cache.get, Cache.set]
  · simp [generateEmbeddingTool, embMessage]

/-- C7: every `generate` invocation emits exactly one cache-clear event and
emits it before any tool runs, and after a clear every lookup — in either
dimensionality, for any previously stored id — misses. -/
theorem generateRun_clears_cache_once (env : Env)
    (parse : String → Except String SolutionOutput) (st : EmbState)
    (script : List AgentAction) (output : Option String) :
    ((generateRun env parse st script output).2.2).count GenEvent.cacheCleared = 1 ∧
    ((generateRun env parse st script output).2.2).head? = some GenEvent.cacheCleared ∧
    ∀ k, (clearEmbeddingCache st).cache.get k = none := by
  refine ⟨?_, rfl, fun k => rfl⟩
  show (GenEvent.cacheCleared :: script.map GenEvent.toolRun).count GenEvent.cacheCleared = 1
  rw [List.count_cons_self]
  have h0 : (script.map GenEvent.toolRun).count GenEvent.cacheCleared = 0 := by
    rw [List.count_eq_zero]
    simp
  omega

/-- C8: whenever the agent loop hands `generate` an empty final output
(absent, or whitespace-only — including the max-iterations case where no
tool-free final text was produced), `generate` fails with the explicit
empty-output error wrapped in the domain error, and never returns a
solution object. -/
theorem generateRun_empty_output_fails (env : Env)
    (parse : String → Except String SolutionOutput) (st : EmbState)
    (script : List AgentAction) (output : Option String)
    (h : isEmptyOutput output = true) :
    (generateRun env parse st script output).1 =
      Except.error ("Failed to generate solution: " ++ emptyOutputError) ∧
    ∀ sol, (generateRun env parse st script output).1 ≠ Except.ok sol := by
  have h1 : (generateRun env parse st script output).1 =
      Except.error ("Failed to generate solution: " ++ emptyOutputError) := by
    show (processAgentOutput parse output).mapError
        (fun e => "Failed to generate solution: " ++ e) = _
    unfold processAgentOutput
    rw [if_pos h]
    rfl
  exact ⟨h1, fun sol hs => by rw [h1] at hs; cases hs⟩

/-- C8 witness: with an absent agent output, `generate` fails with the
wrapped empty-output error. -/
theorem generateRun_empty_output_fails_witness :
    isEmptyOutput none = true ∧
    (generateRun cEnv cParse cState [] none).1 =
      Except.error ("Failed to generate solution: " ++ emptyOutputError) :=
  ⟨rfl, (generateRun_empty_output_fails cEnv cParse cState [] none rfl).1⟩

/-- C4: whatever limit the model requests (and whatever the cache and store
contain), the `match_documents` similarity query of `vectorSearch` is
issued with a limit of at most 4, and the tool never produces more than 4
passages. -/
theorem vectorSearchTool_capped (fmt : ℚ → String) (cache : Cache)
    (docStore : List VectorSearchResult) (embeddingId : String) (limit : Option Nat) :
    (vectorSearchTool fmt cache docStore embeddingId limit).queriedLimit.getD 0 ≤ 4 ∧
    (vectorSearchTool fmt cache docStore embeddingId limit).passages ≤ 4 := by
  unfold vectorSearchTool
  cases cache.get (embeddingId ++ "_3072") with
  | none => exact ⟨by norm_num, by norm_num⟩
  | some v =>
      constructor
      · show (Option.some (min (limit.getD 3) 4)).getD 0 ≤ 4
        simpa using min_le_right _ _
      · show (docStore.take (min (limit.getD 3) 4)).length ≤ 4
        exact le_trans (List.length_take_le _ _) (min_le_right _ _)

/-- C9: when the cached 1536-dimension vector exists but the
`video_recordings` query matches zero segments, `videoSearch` returns the
human-readable no-results sentinel as an ordinary (non-error) result. -/
theorem videoSearchTool_zero_rows (fmt : ℚ → String) (cache : Cache)
    (videoStore : List VideoRow) (embeddingId : String) (limit : Option Nat) (v : Vec)
    (hc : cache.get (embeddingId ++ "_1536") = some v)
    (h0 : videoStore.take (limit.getD 4) = []) :
    (videoSearchTool fmt cache videoStore embeddingId limit).result =
      Except.ok videoNoResultsSentinel := by
  unfold videoSearchTool
  rw [hc]
  simp [h0]

/-- C9 witness: with `emb_1` cached and an empty video store, the tool
returns the sentinel. -/
theorem videoSearchTool_zero_rows_witness :
    vidCache.get ("emb_1" ++ "_1536") = some [0] ∧
    ([] : List VideoRow).take ((none : Option Nat).getD 4) = [] ∧
    (videoSearchTool constFmt vidCache [] "emb_1" none).result =
      Except.ok videoNoResultsSentinel :=
  ⟨by decide, rfl,
    videoSearchTool_zero_rows constFmt vidCache [] "emb_1" none [0] (by decide) rfl⟩

/-- C10: when the cached 1536-dimension vector exists, `videoSearch` passes
the model-supplied limit (defaulting to 4 when omitted) to the
`video_recordings` query without any upper cap, so the tool can return more
than 4 segments — a concrete run with limit 5 over a 5-row store yields 5
segments, while `vectorSearch` on the same requested limit caps the query
at 4. -/
theorem videoSearchTool_uncapped (fmt : ℚ → String) (cache : Cache)
    (videoStore : List VideoRow) (embeddingId : String) (limit : Option Nat) (v : Vec)
    (hc : cache.get (embeddingId ++ "_1536") = some v) :
    (videoSearchTool fmt cache videoStore embeddingId limit).queriedLimit =
      some (limit.getD 4) ∧
    (videoSearchTool constFmt vidCache fiveVideoStore "emb_1" (some 5)).segments = 5 ∧
    (vectorSearchTool constFmt booksCache [] "emb_1" (some 5)).queriedLimit = some 4 := by
  refine ⟨?_, by decide, by decide⟩
  unfold videoSearchTool
  rw [hc]
  dsimp only
  split <;> rfl

/-- C10 witness: instantiated at the cached `emb_1`. -/
theorem videoSearchTool_uncapped_witness :
    vidCache.get ("emb_1" ++ "_1536") = some [0] ∧
    (videoSearchTool constFmt vidCache fiveVideoStore "emb_1" (some 5)).queriedLimit =
      some ((some 5 : Option Nat).getD 4) :=
  ⟨by decide,
    (videoSearchTool_uncapped constFmt vidCache fiveVideoStore "emb_1" (some 5) [0]
      (by decide)).1⟩

/-- C2 counterexample: at a concrete invocation whose embedding id has no
cached 1536-dimension vector, `videoSearch` does not raise an error to its
caller — it returns an ordinary string result (the descriptive
"not found, run embedding first" message wrapped in the availability
template), refuting the claim that the tool fails. -/
theorem videoSearchTool_missing_embedding_not_error :
    (videoSearchTool constFmt Cache.empty [] "emb_1" none).result =
      Except.ok (videoNotFoundResponse "emb_1") ∧
    (videoSearchTool constFmt Cache.empty [] "emb_1" none).result.isOk = true :=
  ⟨rfl, rfl⟩

/-- C2 (amended): when the embedding id has no cached 1536-dimension
vector, `videoSearch` stops immediately — the similarity query is never
issued, so nothing is retried — and hands its caller, as a normal tool
result rather than a raised error, the descriptive message built from
`Embedding <id> not found in cache. Please use generateEmbedding first.`. -/
theorem videoSearchTool_missing_embedding_returns_message (fmt : ℚ → String)
    (cache : Cache) (videoStore : List VideoRow) (embeddingId : String)
    (limit : Option Nat)
    (hc : cache.get (embeddingId ++ "_1536") = none) :
    (videoSearchTool fmt cache videoStore embeddingId limit).result =
      Except.ok (videoNotFoundResponse embeddingId) ∧
    (videoSearchTool fmt cache videoStore embeddingId limit).queriedLimit = none := by
  unfold videoSearchTool
  rw [hc]
  exact ⟨rfl, rfl⟩

/-- C2 witness: instantiated at an empty cache. -/
theorem videoSearchTool_missing_embedding_returns_message_witness :
    Cache.empty.get ("emb_2" ++ "_1536") = none ∧
    (videoSearchTool constFmt Cache.empty [] "emb_2" none).result =
      Except.ok (videoNotFoundResponse "emb_2") :=
  ⟨rfl,
    (videoSearchTool_missing_embedding_returns_message constFmt Cache.empty [] "emb_2" none
      rfl).1⟩

/-- C1: evaluation of `vectorSearch` at a passage whose content has 504
characters.  The text block the tool returns embeds the full, untruncated
504-character content (between the `**FULL CONTENT:**` heading and the
reference snippet), even though the truncated fragments of line 359
(`vectorFormattedContents`, the unused `formattedResults`) differ from it —
so the tool does return a content fragment longer than 500 characters plus
ellipsis, contradicting the claim. -/
theorem vectorSearchTool_content_not_truncated :
    (∃ pre suf : String,
      (vectorSearchTool constFmt booksCache [c1Row] "emb_1" (some 1)).result =
        Except.ok (pre ++ c1Row.content ++ suf)) ∧
    c1Row.content.length = 504 ∧
    vectorFormattedContents [c1Row] = [truncateContent c1Row.content 500] ∧
    truncateContent c1Row.content 500 ≠ c1Row.content := by
  have h504 : c1Row.content.length = 504 := by
    show (List.replicate 504 'a').length = 504
    rw [List.length_replicate]
  refine ⟨?_, h504, rfl, ?_⟩
  · refine ⟨vectorHeader 1 ++ vectorEntryBefore constFmt 0 c1Row,
      vectorEntryAfter c1Row ++ vectorFooter, ?_⟩
    have hc : booksCache.get ("emb_1" ++ "_3072") = some [0] := by decide
    have hres : (vectorSearchTool constFmt booksCache [c1Row] "emb_1" (some 1)).result =
        Except.ok (vectorSearchToolResponse constFmt [c1Row]) := by
      unfold vectorSearchTool
      rw [hc]
      rfl
    rw [hres]
    have hresp : vectorSearchToolResponse constFmt [c1Row] =
        vectorHeader 1 ++ vectorSearchEntry constFmt 0 c1Row ++ vectorFooter := by
      show vectorHeader 1 ++
          String.intercalate "\n\n" [vectorSearchEntry constFmt 0 c1Row] ++ vectorFooter = _
      rw [intercalate_singleton]
    rw [hresp, vectorSearchEntry]
    simp only [String.append_assoc]
  · intro h
    have hl := congrArg String.length h
    rw [truncateContent, if_neg (by omega), String.length_append] at hl
    have ht : (c1Row.content.take 500).length = 500 := by
      rw [strLength_data, String.data_take, List.length_take]
      have hd : c1Row.content.data.length = 504 := by
        rw [← strLength_data]
        exact h504
      omega
    have he : ("..." : String).length = 3 := rfl
    omega

/-- C3: with `maxAttempts = N ≥ 1`, base delay `b` and every jitter draw in
`[0, 0.3)`, `retryOperation` invokes the operation at most `N` times; the
delay slept before attempt `k + 1` (the `k`-th recorded delay, `k = i + 1`
for 0-based index `i`) lies within `[b·2^(k-1), b·2^(k-1)·1.3]`
milliseconds; and if every attempt fails, the wrapper fails with the error
of the last attempt. -/
theorem retryOperation_spec {E A : Type} (op : Nat → Except E A) (N b : Nat)
    (jitter : Nat → ℚ) (hN : 1 ≤ N) (hj : ∀ k, 0 ≤ jitter k ∧ jitter k < 3 / 10) :
    (retryOperation op N b jitter).attemptsUsed ≤ N ∧
    (∀ i (h : i < (retryOperation op N b jitter).delays.length),
      ((b : ℚ) * 2 ^ i ≤ ((retryOperation op N b jitter).delays.get ⟨i, h⟩ : ℚ)) ∧
      (((retryOperation op N b jitter).delays.get ⟨i, h⟩ : ℚ) ≤
        (b : ℚ) * 2 ^ i * (13 / 10))) ∧
    ((∀ k, 1 ≤ k → k ≤ N → ∃ e, op k = Except.error e) →
      ∃ e, op N = Except.error e ∧
        (retryOperation op N b jitter).result = Except.error (some e)) := by
  have hNne : ¬(N = 0) := by omega
  unfold retryOperation
  rw [if_neg hNne]
  refine ⟨?_, ?_, ?_⟩
  · exact retryAux_attempts_le op N b jitter N 1 [] (by omega) (by omega)
  · obtain ⟨m, hm⟩ := retryAux_delays op N b jitter N 1 [] (by omega)
    rw [hm]
    simp only [List.nil_append]
    intro i h
    have hg : (delaysFor b jitter 1 m).get ⟨i, h⟩ = delayFor b jitter (1 + i) := by
      unfold delaysFor at h ⊢
      rw [List.get_eq_getElem, List.getElem_map, List.getElem_range]
    rw [hg]
    have hb := delayFor_bounds b jitter (1 + i) (hj (1 + i)).1 (hj (1 + i)).2
    rw [show (1 + i) - 1 = i from by omega] at hb
    exact hb
  · intro hfail
    exact retryAux_all_fail op N b jitter N 1 [] (by omega) (by omega) hfail

/-- C3 witness: an always-failing operation with two attempts, base delay
2000 ms and constant jitter 0.1. -/
theorem retryOperation_spec_witness :
    ((1 : Nat) ≤ 2 ∧ ∀ k, 0 ≤ c3Jitter k ∧ c3Jitter k < 3 / 10) ∧
    ((retryOperation c3Op 2 2000 c3Jitter).attemptsUsed ≤ 2 ∧
      (∀ i (h : i < (retryOperation c3Op 2 2000 c3Jitter).delays.length),
        (((2000 : Nat) : ℚ) * 2 ^ i ≤
          ((retryOperation c3Op 2 2000 c3Jitter).delays.get ⟨i, h⟩ : ℚ)) ∧
        (((retryOperation c3Op 2 2000 c3Jitter).delays.get ⟨i, h⟩ : ℚ) ≤
          ((2000 : Nat) : ℚ) * 2 ^ i * (13 / 10))) ∧
      ((∀ k, 1 ≤ k → k ≤ 2 → ∃ e, c3Op k = Except.error e) →
        ∃ e, c3Op 2 = Except.error e ∧
          (retryOperation c3Op 2 2000 c3Jitter).result = Except.error (some e))) := by
  have hj : ∀ k, 0 ≤ c3Jitter k ∧ c3Jitter k < 3 / 10 := by
    intro k
    constructor <;> norm_num [c3Jitter]
  exact ⟨⟨by norm_num, hj⟩, retryOperation_spec c3Op 2 2000 c3Jitter (by norm_num) hj⟩

end SolGen
